import Mathlib

/-!
Verification of the audio relay and lead-dispatch workflow of the
AI sales-call agent (main.py). Pure functions and event traces shallowly
embed the source: the spreadsheet adapter (get_pending_lead,
set_lead_status), the dispatch endpoint (initiate_call), the answer
webhook (twilio_answer), the telephony listener of handle_conversation
(twilioStep / twilioRun), the AI responder loop body (aiResponderIter)
and the session cleanup block of handle_conversation (runTryCloses).
Machine bytes are Nat values below 256; base64 text is List Char.
-/

namespace Siaara

/-! ## Base64 (base64.b64decode and the standard encoding it inverts) -/

/-- The standard base64 alphabet, as used by base64.b64encode / b64decode. -/
def b64Alphabet : List Char :=
  "ABCDEFGHIJKLMNOPQRSTUVWXYZabcdefghijklmnopqrstuvwxyz0123456789+/".toList

/-- Index of a character in a list, if present. -/
def charIdx : List Char → Char → Option Nat
  | [], _ => none
  | a :: rest, c =>
    if a = c then some 0 else Option.map (fun n => n + 1) (charIdx rest c)

/-- Sextet value of a base64 character; none for the padding character. -/
def b64CharVal (c : Char) : Option Nat :=
  if c = '=' then none else charIdx b64Alphabet c

/-- Base64 character for a sextet value below 64. -/
def b64EncChar (n : Nat) : Char := b64Alphabet.getD n 'A'

/-- Standard base64 encoding of a byte list, three bytes to four
characters, padded with = as base64.b64encode does. -/
def b64encode : List Nat → List Char
  | [] => []
  | [a] => [b64EncChar (a / 4), b64EncChar (a % 4 * 16), '=', '=']
  | [a, b] =>
    [b64EncChar (a / 4), b64EncChar (a % 4 * 16 + b / 16),
     b64EncChar (b % 16 * 4), '=']
  | a :: b :: c :: rest =>
    b64EncChar (a / 4) :: b64EncChar (a % 4 * 16 + b / 16) ::
    b64EncChar (b % 16 * 4 + c / 64) :: b64EncChar (c % 64) :: b64encode rest

/-- Decode quartets of sextet values (none is padding) into bytes. -/
def b64DecVals : List (Option Nat) → List Nat
  | some v1 :: some v2 :: some v3 :: some v4 :: rest =>
    (v1 * 4 + v2 / 16) :: (v2 % 16 * 16 + v3 / 4) :: (v3 % 4 * 64 + v4) ::
      b64DecVals rest
  | [some v1, some v2, some v3, none] =>
    [v1 * 4 + v2 / 16, v2 % 16 * 16 + v3 / 4]
  | [some v1, some v2, none, none] => [v1 * 4 + v2 / 16]
  | _ => []

/-- base64.b64decode on a padded base64 text. -/
def b64decode (s : List Char) : List Nat := b64DecVals (s.map b64CharVal)

/-! ## Audio relay: the telephony listener of handle_conversation -/

/-- mulaw_silence of main.py: duration times sample rate bytes of 0xFF. -/
def mulaw_silence (duration_ms : Nat := 200) (sample_rate : Nat := 8000) :
    List Nat :=
  List.replicate (sample_rate * duration_ms / 1000) 255

/-- One inbound frame on the media websocket, as twilio_listener reads it:
a JSON text frame with an event field, or a disconnect frame. -/
inductive TwEvent where
  | start
  | media (payload : List Char)
  | stop
  | other (name : String)
  | disconnect
  deriving DecidableEq

/-- One message the relay sends to the speech-to-text websocket: the JSON
configuration text of configure_deepgram, the silence priming bytes, or a
forwarded audio chunk. -/
inductive DgSend where
  | config
  | silence (bytes : List Nat)
  | audio (bytes : List Nat)
  deriving DecidableEq

/-- The handling of one frame in the loop body of twilio_listener:
returns the new configured flag, the messages sent to the speech-to-text
connection, and whether the loop breaks. A start event runs
configure_deepgram, which sends the configuration JSON, sets the
configured flag and sends 200 ms of mu-law silence. A media event is
forwarded (base64-decoded) only when configured. A stop event or a
disconnect breaks the loop; other events are ignored. -/
def twilioStep (configured : Bool) : TwEvent → Bool × List DgSend × Bool
  | TwEvent.start =>
    (true, [DgSend.config, DgSend.silence (mulaw_silence 200 8000)], false)
  | TwEvent.media p =>
    if configured then (configured, [DgSend.audio (b64decode p)], false)
    else (configured, [], false)
  | TwEvent.stop => (configured, [], true)
  | TwEvent.other _ => (configured, [], false)
  | TwEvent.disconnect => (configured, [], true)

/-- The while-True loop of twilio_listener over a finite frame trace:
the sequence of messages it sends to the speech-to-text connection. -/
def twilioRun (configured : Bool) : List TwEvent → List DgSend
  | [] => []
  | e :: es =>
    match twilioStep configured e with
    | (_, sends, true) => sends
    | (c, sends, false) => sends ++ twilioRun c es

/-- Number of forwarded audio chunks in a send trace. -/
def countAudio : List DgSend → Nat
  | [] => 0
  | DgSend.audio _ :: rest => countAudio rest + 1
  | DgSend.config :: rest => countAudio rest
  | DgSend.silence _ :: rest => countAudio rest

/-- Number of configuration messages in a send trace. -/
def countConfig : List DgSend → Nat
  | [] => 0
  | DgSend.config :: rest => countConfig rest + 1
  | DgSend.audio _ :: rest => countConfig rest
  | DgSend.silence _ :: rest => countConfig rest

/-- True when no audio chunk occurs before the first configuration
message in a send trace. -/
def noAudioBeforeConfig : List DgSend → Bool
  | [] => true
  | DgSend.config :: _ => true
  | DgSend.audio _ :: _ => false
  | DgSend.silence _ :: rest => noAudioBeforeConfig rest

/-! ## Lead store adapter and call dispatch (/call endpoint) -/

/-- One spreadsheet row as gspread get_all_records returns it: values of
the LeadName, Phone and Status headers (none when the key is absent) and
the call-identifier column. -/
structure LeadRecord where
  leadName : Option String
  phone : Option String
  status : Option String
  callSid : Option String
  deriving DecidableEq

/-- The remote spreadsheet: its rows, and whether the transport and auth
steps of the adapter succeed (false models any exception raised inside
get_pending_lead before it returns). -/
structure SheetState where
  records : List LeadRecord
  reachable : Bool
  deriving DecidableEq

/-- The str.lower method of Python on ASCII text, as the per-character
lowercase map over the characters of the string. -/
def pyLower (s : String) : String := String.mk (s.data.map Char.toLower)

/-- The scan loop of get_pending_lead: first record whose Status value
(defaulting to the empty string) lowercases to pending, with its 1-based
sheet row number, enumerate index plus 2. -/
def findPending : List LeadRecord → Nat → Option (LeadRecord × Nat)
  | [], _ => none
  | r :: rs, i =>
    if pyLower (r.status.getD "") = "pending" then some (r, i + 2)
    else findPending rs (i + 1)

/-- get_pending_lead of main.py: scans the sheet for the first pending
row; any exception is caught and mapped to no result. -/
def get_pending_lead (s : SheetState) : Option (LeadRecord × Nat) :=
  if s.reachable then findPending s.records 0 else none

/-- One update_cell invocation on the sheet. -/
structure CellWrite where
  row : Nat
  col : Nat
  value : String
  deriving DecidableEq

/-- set_lead_status of main.py, as the list of update_cell calls it
issues: the status into column 5, and, when the call sid argument is
truthy, the sid into column 6. -/
def set_lead_status (row_number : Nat) (status : String)
    (call_sid : Option String := none) : List CellWrite :=
  CellWrite.mk row_number 5 status ::
    match call_sid with
    | none => []
    | some sid => if sid = "" then [] else [CellWrite.mk row_number 6 sid]

/-- Outcome of the calls.create invocation on the telephony provider:
a call sid, or a raised error with its text. -/
inductive TwilioOutcome where
  | ok (sid : String)
  | err (msg : String)
  deriving DecidableEq

/-- The value the /call endpoint produces: a JSON body with a status
field, or a raised HTTPException with a status code and detail text. -/
inductive DispatchResult where
  | complete (message : String)
  | skipped (message : String)
  | calling (message : String) (call_sid : String)
  | httpError (code : Nat) (detail : String)
  deriving DecidableEq

/-- Observable effects and return value of one POST /call invocation. -/
structure DispatchOutcome where
  result : DispatchResult
  writes : List CellWrite
  calls : List String
  envCallSid : Option String
  deriving DecidableEq

/-- initiate_call of main.py. Reads the next pending lead; returns a
complete result when none is found, a skipped result when the Phone value
is falsy, and otherwise places a call: on success it stores the sid in
the process environment, writes status Calling and the sid to the sheet
and returns a calling result; on provider error it raises HTTP 500 with
the provider error text and writes nothing. -/
def initiate_call (s : SheetState) (provider : String → TwilioOutcome) :
    DispatchOutcome :=
  match get_pending_lead s with
  | none =>
    ⟨DispatchResult.complete "No pending leads found in Google Sheet.",
     [], [], none⟩
  | some (lead, row_number) =>
    let lead_name := lead.leadName.getD "Customer"
    let lead_phone := lead.phone.getD ""
    if lead_phone = "" then
      ⟨DispatchResult.skipped
        ("Lead " ++ lead_name ++ " skipped (No Phone)."), [], [], none⟩
    else
      match provider lead_phone with
      | TwilioOutcome.ok sid =>
        ⟨DispatchResult.calling ("Call initiated for " ++ lead_name ++ ".")
          sid,
         set_lead_status row_number "Calling" (some sid), [lead_phone],
         some sid⟩
      | TwilioOutcome.err e =>
        ⟨DispatchResult.httpError 500
          ("Failed to initiate call via Twilio. Error: " ++ e),
         [], [lead_phone], none⟩

/-- Apply one cell write to the sheet: column 5 is the status column,
column 6 the call-identifier column, on the record at sheet row minus 2. -/
def applyWrite (s : SheetState) (w : CellWrite) : SheetState :=
  ⟨s.records.modify
    (fun r =>
      if w.col = 5 then ⟨r.leadName, r.phone, some w.value, r.callSid⟩
      else if w.col = 6 then ⟨r.leadName, r.phone, r.status, some w.value⟩
      else r)
    (w.row - 2),
   s.reachable⟩

/-- Apply a sequence of cell writes to the sheet. -/
def applyWrites (s : SheetState) : List CellWrite → SheetState
  | [] => s
  | w :: ws => applyWrites (applyWrite s w) ws

/-! ## Answer webhook (/plivo_answer) -/

/-- One verb of the TwiML document that twilio_answer builds. -/
inductive TwimlVerb where
  | startStream (url : String) (track : String)
  | pause (length : Nat)
  | say (text : String) (voice : String)
  | hangup
  deriving DecidableEq

/-- The media relay address of this system. -/
def relayBase : String := "wss://siaara.clickites.com/media"

/-- The scripted greeting of twilio_answer. -/
def GREETING : String :=
  "Hi, I\x27m Rahul from Siaara. We help automate your business calls " ++
  "and save you time. Is this a good time to talk?"

/-- How a Python f-string renders an optional form value: the string
None when the field is absent. -/
def pyFormStr : Option String → String
  | none => "None"
  | some s => s

/-- twilio_answer of main.py: the TwiML document for any CallSid form
value. It starts an inbound media stream at the relay address, pauses,
speaks the greeting, pauses again and hangs up. Pure: no state is read
or written besides the CallSid argument. -/
def twilio_answer (callSid : Option String) : List TwimlVerb :=
  let ws_url := relayBase ++ "?call_sid=" ++ pyFormStr callSid
  [TwimlVerb.startStream ws_url "inbound",
   TwimlVerb.pause 1,
   TwimlVerb.say GREETING "Polly.Matthew",
   TwimlVerb.pause 60,
   TwimlVerb.hangup]

/-- Number of stream-start verbs in a TwiML document. -/
def countStream (l : List TwimlVerb) : Nat :=
  l.countP fun v => match v with | TwimlVerb.startStream _ _ => true | _ => false

/-- Number of speech verbs in a TwiML document. -/
def countSay (l : List TwimlVerb) : Nat :=
  l.countP fun v => match v with | TwimlVerb.say _ _ => true | _ => false

/-! ## AI responder loop body (ai_responder of handle_conversation) -/

/-- The environment one iteration of the ai_responder loop observes: the
dequeued transcript, the outcome of the language-model call (error text,
or the text attribute of the response), the process-wide current call
sid, and whether the live-call update raises. -/
structure ResponderEnv where
  userText : String
  gemini : Except String String
  currentCallSid : Option String
  twilioUpdateFails : Bool

/-- What one iteration does besides looping: log an error, update the
live call with spoken text, or log that no call sid is available. -/
inductive RespAction where
  | logError (msg : String)
  | twilioSay (sid : String) (text : String)
  | logNoSid
  deriving DecidableEq

/-- Whether an iteration continues the while-True loop or leaves it. -/
inductive LoopControl where
  | cont
  | stop
  deriving DecidableEq

/-- One iteration of the while-True body of ai_responder. An empty
transcript is skipped. Otherwise the language model is consulted inside
a try block; a blank reply is replaced by the filler Okay.; with a
truthy current call sid the call is updated, and a raised update error
is caught by the same try block; without one a warning is logged. Every
path continues the loop. -/
def aiResponderIter (env : ResponderEnv) : LoopControl × List RespAction :=
  if env.userText = "" then (LoopControl.cont, [])
  else
    match env.gemini with
    | Except.error e => (LoopControl.cont, [RespAction.logError e])
    | Except.ok t =>
      let ai_text := if t.trim = "" then "Okay." else t.trim
      match env.currentCallSid with
      | none => (LoopControl.cont, [RespAction.logNoSid])
      | some sid =>
        if sid = "" then (LoopControl.cont, [RespAction.logNoSid])
        else if env.twilioUpdateFails then
          (LoopControl.cont, [RespAction.logError "ai responder error"])
        else (LoopControl.cont, [RespAction.twilioSay sid ai_text])

/-! ## Session teardown of handle_conversation -/

/-- The three listener tasks handle_conversation spawns. -/
inductive ListenerTask where
  | twilioL
  | deepgramL
  | responderL
  deriving DecidableEq

/-- The task list of handle_conversation, in creation order. -/
def sessionTasks : List ListenerTask :=
  [ListenerTask.twilioL, ListenerTask.deepgramL, ListenerTask.responderL]

/-- After asyncio.wait returns on the first completed task, the cleanup
block calls cancel on every task in the list, the exited one included. -/
def cancelledTasks (_firstExited : ListenerTask) : List ListenerTask :=
  sessionTasks

/-- The three close operations of the cleanup block, in program order:
the speech-to-text websocket, the telephony websocket, the HTTP session. -/
inductive CloseOp where
  | closeDg
  | closeTw
  | closeSess
  deriving DecidableEq

/-- Run a sequence of close operations under one try block: a raising
close aborts the remaining closes and the exception is caught and
logged. Returns the attempted operations, the completed operations, and
whether an exception was logged. -/
def runTryCloses (fails : CloseOp → Bool) :
    List CloseOp → List CloseOp × List CloseOp × Bool
  | [] => ([], [], false)
  | op :: rest =>
    if fails op then ([op], [], true)
    else
      match runTryCloses fails rest with
      | (att, done, logged) => (op :: att, op :: done, logged)

/-- The close sequence of the cleanup block of handle_conversation. -/
def cleanupCloses (fails : CloseOp → Bool) :
    List CloseOp × List CloseOp × Bool :=
  runTryCloses fails [CloseOp.closeDg, CloseOp.closeTw, CloseOp.closeSess]

/-! ## Helper lemmas -/

theorem b64CharVal_encChar_fin :
    ∀ m : Fin 64, b64CharVal (b64EncChar m.val) = some m.val := by decide

theorem b64CharVal_encChar (n : Nat) (h : n < 64) :
    b64CharVal (b64EncChar n) = some n :=
  b64CharVal_encChar_fin ⟨n, h⟩

theorem b64CharVal_pad : b64CharVal '=' = none := rfl

/-- Decoding inverts encoding on byte lists. -/
theorem b64_roundtrip :
    ∀ l : List Nat, (∀ x ∈ l, x < 256) → b64decode (b64encode l) = l
  | [], _ => rfl
  | [a], h => by
    have ha : a < 256 := h a (by simp)
    simp only [b64encode, b64decode, List.map_cons, List.map_nil,
      b64CharVal_encChar (a / 4) (by omega),
      b64CharVal_encChar (a % 4 * 16) (by omega), b64CharVal_pad, b64DecVals,
      List.cons.injEq, and_true]
    omega
  | [a, b], h => by
    have ha : a < 256 := h a (by simp)
    have hb : b < 256 := h b (by simp)
    simp only [b64encode, b64decode, List.map_cons, List.map_nil,
      b64CharVal_encChar (a / 4) (by omega),
      b64CharVal_encChar (a % 4 * 16 + b / 16) (by omega),
      b64CharVal_encChar (b % 16 * 4) (by omega), b64CharVal_pad, b64DecVals,
      List.cons.injEq, and_true]
    exact ⟨by omega, by omega⟩
  | a :: b :: c :: rest, h => by
    have ha : a < 256 := h a (by simp)
    have hb : b < 256 := h b (by simp)
    have hc : c < 256 := h c (by simp)
    have ih := b64_roundtrip rest fun x hx => h x (by simp [hx])
    simp only [b64decode] at ih
    simp only [b64encode, b64decode, List.map_cons, List.map_append,
      b64CharVal_encChar (a / 4) (by omega),
      b64CharVal_encChar (a % 4 * 16 + b / 16) (by omega),
      b64CharVal_encChar (b % 16 * 4 + c / 64) (by omega),
      b64CharVal_encChar (c % 64) (by omega), b64DecVals, ih,
      List.cons.injEq]
    exact ⟨by omega, by omega, by omega, trivial⟩

/-- While configured, the listener forwards each media payload decoded. -/
theorem twilioRun_media_all (ps : List (List Char)) :
    twilioRun true (ps.map TwEvent.media ++ [TwEvent.stop]) =
      ps.map fun p => DgSend.audio (b64decode p) := by
  induction ps with
  | nil => rfl
  | cons p ps ih => simp [twilioRun, twilioStep, ih]

theorem countAudio_map (ps : List (List Char)) :
    countAudio (ps.map fun p => DgSend.audio (b64decode p)) = ps.length := by
  induction ps with
  | nil => rfl
  | cons p ps ih => simp [countAudio, ih]

theorem countConfig_map (ps : List (List Char)) :
    countConfig (ps.map fun p => DgSend.audio (b64decode p)) = 0 := by
  induction ps with
  | nil => rfl
  | cons p ps ih => simp [countConfig, ih]

theorem findPending_none :
    ∀ (rs : List LeadRecord) (i : Nat),
      (∀ r ∈ rs, pyLower (r.status.getD "") ≠ "pending") →
      findPending rs i = none
  | [], _, _ => rfl
  | r :: rs, i, h => by
    have hr := h r (by simp)
    simp [findPending, hr,
      findPending_none rs (i + 1) (fun x hx => h x (by simp [hx]))]

theorem noAudioBeforeConfig_run :
    ∀ es : List TwEvent, noAudioBeforeConfig (twilioRun false es) = true := by
  intro es
  induction es with
  | nil => rfl
  | cons e es ih =>
    cases e with
    | start => simp [twilioRun, twilioStep, noAudioBeforeConfig]
    | media p => simpa [twilioRun, twilioStep] using ih
    | stop => rfl
    | other s => simpa [twilioRun, twilioStep] using ih
    | disconnect => rfl

/-! ## Claims -/

/-- C1: feeding the telephony listener a start event, then N media
events, then a stop event makes it send the configuration message first,
then the silence priming bytes, then exactly N forwarded audio chunks:
exactly N audio forwards, exactly one configuration message, and no
audio forward before the configuration message. -/
theorem claim_C1_relay_forward_counts (ps : List (List Char)) :
    twilioRun false (TwEvent.start :: (ps.map TwEvent.media ++ [TwEvent.stop])) =
      DgSend.config :: DgSend.silence (mulaw_silence 200 8000) ::
        (ps.map fun p => DgSend.audio (b64decode p)) ∧
    countAudio
      (twilioRun false
        (TwEvent.start :: (ps.map TwEvent.media ++ [TwEvent.stop]))) =
      ps.length ∧
    countConfig
      (twilioRun false
        (TwEvent.start :: (ps.map TwEvent.media ++ [TwEvent.stop]))) = 1 ∧
    noAudioBeforeConfig
      (twilioRun false
        (TwEvent.start :: (ps.map TwEvent.media ++ [TwEvent.stop]))) = true := by
  have hrun : twilioRun false
      (TwEvent.start :: (ps.map TwEvent.media ++ [TwEvent.stop])) =
      DgSend.config :: DgSend.silence (mulaw_silence 200 8000) ::
        (ps.map fun p => DgSend.audio (b64decode p)) := by
    simp [twilioRun, twilioStep, twilioRun_media_all]
  refine ⟨hrun, ?_, ?_, ?_⟩ <;>
    rw [hrun] <;>
    simp [countAudio, countConfig, noAudioBeforeConfig,
      countAudio_map, countConfig_map]

/-- C3: a media event handled while configured forwards exactly the
base64 decoding of its payload to the speech-to-text connection, and
decoding inverts encoding, so an encoded chunk is relayed back to its
original bytes with no transcoding. -/
theorem claim_C3_media_roundtrip :
    (∀ p : List Char,
      twilioStep true (TwEvent.media p) =
        (true, [DgSend.audio (b64decode p)], false)) ∧
    ∀ chunk : List Nat, (∀ x ∈ chunk, x < 256) →
      b64decode (b64encode chunk) = chunk :=
  ⟨fun _ => rfl, b64_roundtrip⟩

/-- Witness for C3 at the chunk 1, 255, 16. -/
theorem claim_C3_witness : b64decode (b64encode [1, 255, 16]) = [1, 255, 16] :=
  claim_C3_media_roundtrip.2 [1, 255, 16] (by decide)

/-- C9: on any frame trace starting unconfigured, the listener never
forwards audio before the configuration message, and a media event in
the unconfigured state sends nothing, raises nothing and leaves the
state unchanged. -/
theorem claim_C9_no_forward_before_config :
    (∀ es : List TwEvent, noAudioBeforeConfig (twilioRun false es) = true) ∧
    ∀ p : List Char, twilioStep false (TwEvent.media p) = (false, [], false) :=
  ⟨noAudioBeforeConfig_run, fun _ => rfl⟩

/-- C4: when the store yields no pending lead, either because no row has
status pending, case-insensitively, or because the adapter is
unreachable, dispatch returns the complete result and writes nothing,
and the outcome is identical to the outcome on an empty reachable
store. -/
theorem claim_C4_no_pending_complete (s : SheetState)
    (provider : String → TwilioOutcome)
    (h : s.reachable = false ∨
      ∀ r ∈ s.records, pyLower (r.status.getD "") ≠ "pending") :
    (initiate_call s provider).result =
      DispatchResult.complete "No pending leads found in Google Sheet." ∧
    (initiate_call s provider).writes = [] ∧
    (initiate_call s provider).calls = [] ∧
    initiate_call s provider = initiate_call ⟨[], true⟩ provider := by
  have hnone : get_pending_lead s = none := by
    cases h with
    | inl hr => simp [get_pending_lead, hr]
    | inr hp => simp [get_pending_lead, findPending_none s.records 0 hp]
  simp only [initiate_call, hnone]
  refine ⟨trivial, trivial, trivial, rfl⟩

/-- Witness for C4 on a one-row store whose only status is Done. -/
theorem claim_C4_witness :
    (initiate_call
        ⟨[⟨some "Alice", some "+15550000000", some "Done", none⟩], true⟩
        (fun _ => TwilioOutcome.ok "CA9")).result =
      DispatchResult.complete "No pending leads found in Google Sheet." ∧
    (initiate_call
        ⟨[⟨some "Alice", some "+15550000000", some "Done", none⟩], true⟩
        (fun _ => TwilioOutcome.ok "CA9")).writes = [] := by
  have h := claim_C4_no_pending_complete
    ⟨[⟨some "Alice", some "+15550000000", some "Done", none⟩], true⟩
    (fun _ => TwilioOutcome.ok "CA9") (Or.inr (by decide))
  exact ⟨h.1, h.2.1⟩

/-- C5: a pending lead whose Phone value is falsy yields the skipped
result, no sheet write and no placed call; the store is unchanged, so a
second trigger returns the same outcome. -/
theorem claim_C5_empty_phone_skipped (s : SheetState)
    (provider : String → TwilioOutcome) (lead : LeadRecord) (row : Nat)
    (hfind : get_pending_lead s = some (lead, row))
    (hphone : lead.phone.getD "" = "") :
    (initiate_call s provider).result =
      DispatchResult.skipped
        ("Lead " ++ lead.leadName.getD "Customer" ++ " skipped (No Phone).") ∧
    (initiate_call s provider).writes = [] ∧
    (initiate_call s provider).calls = [] ∧
    applyWrites s (initiate_call s provider).writes = s ∧
    initiate_call (applyWrites s (initiate_call s provider).writes) provider =
      initiate_call s provider := by
  simp [initiate_call, hfind, hphone, applyWrites]

/-- Witness for C5 on a one-row store with a pending lead and no phone. -/
theorem claim_C5_witness :
    (initiate_call ⟨[⟨some "Bob", none, some "Pending", none⟩], true⟩
        (fun _ => TwilioOutcome.ok "CA9")).result =
      DispatchResult.skipped "Lead Bob skipped (No Phone)." ∧
    (initiate_call ⟨[⟨some "Bob", none, some "Pending", none⟩], true⟩
        (fun _ => TwilioOutcome.ok "CA9")).writes = [] ∧
    (initiate_call ⟨[⟨some "Bob", none, some "Pending", none⟩], true⟩
        (fun _ => TwilioOutcome.ok "CA9")).calls = [] := by
  have h := claim_C5_empty_phone_skipped
    ⟨[⟨some "Bob", none, some "Pending", none⟩], true⟩
    (fun _ => TwilioOutcome.ok "CA9")
    ⟨some "Bob", none, some "Pending", none⟩ 2 (by decide) rfl
  exact ⟨h.1, h.2.1, h.2.2.1⟩

/-- C6: when the provider call succeeds with sid CA123, dispatch writes
the status cell of the row to Calling and the call-identifier cell to
CA123, each exactly once, and returns the calling result carrying
CA123. -/
theorem claim_C6_success_writes (s : SheetState)
    (provider : String → TwilioOutcome) (lead : LeadRecord) (row : Nat)
    (hfind : get_pending_lead s = some (lead, row))
    (hphone : lead.phone.getD "" ≠ "")
    (hprov : provider (lead.phone.getD "") = TwilioOutcome.ok "CA123") :
    (initiate_call s provider).writes =
      [CellWrite.mk row 5 "Calling", CellWrite.mk row 6 "CA123"] ∧
    ((initiate_call s provider).writes.countP fun w => w.col == 5) = 1 ∧
    ((initiate_call s provider).writes.countP fun w => w.col == 6) = 1 ∧
    (initiate_call s provider).result =
      DispatchResult.calling
        ("Call initiated for " ++ lead.leadName.getD "Customer" ++ ".")
        "CA123" := by
  simp [initiate_call, hfind, hphone, hprov, set_lead_status,
    List.countP_cons]

/-- Witness for C6 on a one-row store with a pending lead and a phone. -/
theorem claim_C6_witness :
    (initiate_call
        ⟨[⟨some "Bob", some "+15551230000", some "Pending", none⟩], true⟩
        (fun _ => TwilioOutcome.ok "CA123")).writes =
      [CellWrite.mk 2 5 "Calling", CellWrite.mk 2 6 "CA123"] ∧
    (initiate_call
        ⟨[⟨some "Bob", some "+15551230000", some "Pending", none⟩], true⟩
        (fun _ => TwilioOutcome.ok "CA123")).result =
      DispatchResult.calling "Call initiated for Bob." "CA123" := by
  have h := claim_C6_success_writes
    ⟨[⟨some "Bob", some "+15551230000", some "Pending", none⟩], true⟩
    (fun _ => TwilioOutcome.ok "CA123")
    ⟨some "Bob", some "+15551230000", some "Pending", none⟩ 2
    (by decide) (by decide) rfl
  exact ⟨h.1, h.2.2.2⟩

/-- C7: when the provider call raises for a lead with a phone number,
dispatch surfaces HTTP 500 whose detail carries the provider error text,
and performs no sheet write. -/
theorem claim_C7_provider_failure (s : SheetState)
    (provider : String → TwilioOutcome) (lead : LeadRecord) (row : Nat)
    (e : String)
    (hfind : get_pending_lead s = some (lead, row))
    (hphone : lead.phone.getD "" ≠ "")
    (hprov : provider (lead.phone.getD "") = TwilioOutcome.err e) :
    (initiate_call s provider).result =
      DispatchResult.httpError 500
        ("Failed to initiate call via Twilio. Error: " ++ e) ∧
    (initiate_call s provider).writes = [] ∧
    (initiate_call s provider).envCallSid = none := by
  simp [initiate_call, hfind, hphone, hprov]

/-- Witness for C7 on a one-row store and an always-failing provider. -/
theorem claim_C7_witness :
    (initiate_call
        ⟨[⟨some "Bob", some "+15551230000", some "Pending", none⟩], true⟩
        (fun _ => TwilioOutcome.err "Unable to create record")).result =
      DispatchResult.httpError 500
        "Failed to initiate call via Twilio. Error: Unable to create record" ∧
    (initiate_call
        ⟨[⟨some "Bob", some "+15551230000", some "Pending", none⟩], true⟩
        (fun _ => TwilioOutcome.err "Unable to create record")).writes = [] := by
  have h := claim_C7_provider_failure
    ⟨[⟨some "Bob", some "+15551230000", some "Pending", none⟩], true⟩
    (fun _ => TwilioOutcome.err "Unable to create record")
    ⟨some "Bob", some "+15551230000", some "Pending", none⟩ 2
    "Unable to create record" (by decide) (by decide) rfl
  exact ⟨h.1, h.2.1⟩

/-- C8: for every CallSid form value, the answer webhook returns the one
fixed document: exactly one stream-start verb pointed at the relay
address and exactly one greeting-speech verb; the handler reads and
writes no state, so the same CallSid always yields the same document. -/
theorem claim_C8_answer_document (callSid : Option String) :
    countStream (twilio_answer callSid) = 1 ∧
    countSay (twilio_answer callSid) = 1 ∧
    twilio_answer callSid =
      [TwimlVerb.startStream
        (relayBase ++ "?call_sid=" ++ pyFormStr callSid) "inbound",
       TwimlVerb.pause 1,
       TwimlVerb.say GREETING "Polly.Matthew",
       TwimlVerb.pause 60,
       TwimlVerb.hangup] := by
  refine ⟨?_, ?_, rfl⟩ <;>
    simp [countStream, countSay, twilio_answer, List.countP_cons]

/-- C10: every iteration of the responder loop body continues the loop,
whatever the transcript, the language-model outcome, the current call
sid and the update outcome are, and an empty transcript is skipped with
no action: the responder never terminates on its own, so only the two
listener tasks can end the session. -/
theorem claim_C10_responder_never_exits :
    (∀ env : ResponderEnv, (aiResponderIter env).1 = LoopControl.cont) ∧
    ∀ (g : Except String String) (c : Option String) (t : Bool),
      aiResponderIter ⟨"", g, c, t⟩ = (LoopControl.cont, []) := by
  constructor
  · intro env
    rcases env with ⟨u, g, c, t⟩
    simp only [aiResponderIter]
    split
    · rfl
    · cases g with
      | error e => rfl
      | ok s =>
        cases c with
        | none => rfl
        | some sid =>
          dsimp only
          split
          · rfl
          · split <;> rfl
  · intro g c t
    simp [aiResponderIter]

/-- C2: whichever listener exits first, the cleanup block cancels every
task of the session; each close operation is attempted at most once,
never retried; an exception in a close is logged exactly when one of the
attempted closes raises; and when no close raises, the speech-to-text
connection, the telephony connection and the HTTP session are all
closed. -/
theorem claim_C2_teardown (firstExited : ListenerTask)
    (fails : CloseOp → Bool) :
    (∀ t : ListenerTask, t ≠ firstExited → t ∈ cancelledTasks firstExited) ∧
    (∀ op : CloseOp, (cleanupCloses fails).1.count op ≤ 1) ∧
    ((∀ op, fails op = false) →
      (cleanupCloses fails).2.1 =
        [CloseOp.closeDg, CloseOp.closeTw, CloseOp.closeSess]) ∧
    (cleanupCloses fails).2.2 = (cleanupCloses fails).1.any fails := by
  refine ⟨?_, ?_, ?_, ?_⟩
  · intro t _
    cases t <;> simp [cancelledTasks, sessionTasks]
  · intro op
    cases hdg : fails CloseOp.closeDg <;>
      cases htw : fails CloseOp.closeTw <;>
      cases hsess : fails CloseOp.closeSess <;>
      cases op <;>
      simp [cleanupCloses, runTryCloses, hdg, htw, hsess, List.count_cons]
  · intro hall
    simp [cleanupCloses, runTryCloses, hall]
  · cases hdg : fails CloseOp.closeDg <;>
      cases htw : fails CloseOp.closeTw <;>
      cases hsess : fails CloseOp.closeSess <;>
      simp [cleanupCloses, runTryCloses, hdg, htw, hsess]

/-- Witness for C2: first exited listener twilioL, no failing close. -/
theorem claim_C2_witness :
    ListenerTask.deepgramL ∈ cancelledTasks ListenerTask.twilioL ∧
    (cleanupCloses (fun _ => false)).2.1 =
      [CloseOp.closeDg, CloseOp.closeTw, CloseOp.closeSess] := by
  have h := claim_C2_teardown ListenerTask.twilioL (fun _ => false)
  exact ⟨h.1 ListenerTask.deepgramL (by decide), h.2.2.1 (fun _ => rfl)⟩

end Siaara
